import Mathlib

/-!
Verification of the problem-generator pipeline in `app2.py`.

The file embeds, as executable Lean definitions translated from the source:
  * `build_prompt`   — the prompt-construction function (lines 195–234);
  * `stream_gemini_text` — the streaming adapter (lines 237–270), as a function
    of an explicit environment describing the client library, credentials and
    the transport's behaviour;
  * `json_match`     — the regex search `re.search(r'\[\s*\{.*\}\s*\]', text, re.DOTALL)`
    (line 309), implemented with Python's leftmost-start, greedy-with-backtracking
    semantics specialised to this fixed pattern;
  * `json_loads`     — strict JSON parsing as performed by Python's `json.loads`
    (line 313): full JSON grammar, rejecting trailing commas, unquoted keys,
    control characters in strings, and trailing garbage;
  * `df_data` / `df_row` — the per-problem row construction for the exported
    table (lines 316–327), with Python's `dict.get` defaulting and the
    `AttributeError` raised by `.get` on a non-dict element modelled as an
    `Except` error;
  * `processGenerated` — the parse-and-export block (lines 306–327 and 354–359),
    returning which user-visible outcome the code reaches.
-/

/-! ### JSON values (the result of `json.loads` on the matched span) -/

/-- A parsed JSON value. Numbers keep their source lexeme: the pipeline never
computes with numeric values, it only moves them between cells. Objects keep
their key/value pairs in parse order; as in a Python dict built by repeated
assignment, a later duplicate key wins on lookup (see `dictGetD`). -/
inductive JVal where
  | jnull
  | jbool (b : Bool)
  | jnum (lexeme : String)
  | jstr (s : String)
  | jarr (elems : List JVal)
  | jobj (fields : List (String × JVal))

/-- True exactly on JSON objects (Python dicts after `json.loads`). -/
def JVal.isObj : JVal → Bool
  | .jobj _ => true
  | _ => false

/-! ### Strict JSON parsing, as `json.loads` does it -/

/-- JSON whitespace as skipped by Python's `json` decoder: space, tab,
newline, carriage return. -/
def isJsonWs (c : Char) : Bool :=
  c = ' ' || c = '\t' || c = '\n' || c = '\r'

/-- Drop leading JSON whitespace. -/
def skipJsonWs : List Char → List Char
  | c :: cs => if isJsonWs c then skipJsonWs cs else c :: cs
  | [] => []

/-- Value of a hex digit, if the character is one. -/
def hexDigitVal (c : Char) : Option Nat :=
  if '0' ≤ c ∧ c ≤ '9' then some (c.toNat - '0'.toNat)
  else if 'a' ≤ c ∧ c ≤ 'f' then some (c.toNat - 'a'.toNat + 10)
  else if 'A' ≤ c ∧ c ≤ 'F' then some (c.toNat - 'A'.toNat + 10)
  else none

/-- Parse the remainder of a JSON string literal (the opening quote already
consumed), accumulating decoded characters in reverse. Escapes and the
rejection of raw control characters follow the strict mode of `json.loads`. -/
def scanJsonString : List Char → List Char → Except String (String × List Char)
  | [], _ => .error "Unterminated string"
  | '"' :: rest, acc => .ok (String.mk acc.reverse, rest)
  | '\\' :: rest, acc =>
    match rest with
    | [] => .error "Unterminated string"
    | 'u' :: a :: b :: c :: d :: r2 =>
      match hexDigitVal a, hexDigitVal b, hexDigitVal c, hexDigitVal d with
      | some x, some y, some z, some w =>
        scanJsonString r2 (Char.ofNat (((x * 16 + y) * 16 + z) * 16 + w) :: acc)
      | _, _, _, _ => .error "Invalid hex escape"
    | e :: r2 =>
      if e = '"' then scanJsonString r2 ('"' :: acc)
      else if e = '\\' then scanJsonString r2 ('\\' :: acc)
      else if e = '/' then scanJsonString r2 ('/' :: acc)
      else if e = 'b' then scanJsonString r2 ('\x08' :: acc)
      else if e = 'f' then scanJsonString r2 ('\x0c' :: acc)
      else if e = 'n' then scanJsonString r2 ('\n' :: acc)
      else if e = 'r' then scanJsonString r2 ('\r' :: acc)
      else if e = 't' then scanJsonString r2 ('\t' :: acc)
      else .error "Invalid escape"
  | c :: rest, acc =>
    if c.toNat < 32 then .error "Invalid control character"
    else scanJsonString rest (c :: acc)

/-- Longest leading run of decimal digits, and the rest. -/
def takeDigitRun : List Char → List Char × List Char
  | c :: cs =>
    if c.isDigit then
      let (ds, r) := takeDigitRun cs
      (c :: ds, r)
    else ([], c :: cs)
  | [] => ([], [])

/-- Scan a JSON number lexeme with the decoder's max-munch regex
`-?(0|[1-9][0-9]*)(\.[0-9]+)?([eE][-+]?[0-9]+)?`: whatever follows the longest
such lexeme is left for the caller, as in `json.loads`. -/
def scanJsonNumber (cs : List Char) : Except String (String × List Char) :=
  let (sign, cs1) := match cs with
    | '-' :: r => ("-", r)
    | _ => ("", cs)
  match cs1 with
  | c :: r =>
    if c.isDigit then
      let (intPart, cs2) :=
        if c = '0' then ("0", r)
        else
          let (ds, r2) := takeDigitRun r
          (String.mk (c :: ds), r2)
      let (fracPart, cs3) := match cs2 with
        | '.' :: d :: r2 =>
          if d.isDigit then
            let (ds, r3) := takeDigitRun r2
            ("." ++ String.mk (d :: ds), r3)
          else ("", cs2)
        | _ => ("", cs2)
      let (expPart, cs4) := match cs3 with
        | e :: t =>
          if e = 'e' ∨ e = 'E' then
            match t with
            | s :: d :: r2 =>
              if (s = '+' ∨ s = '-') ∧ d.isDigit then
                let (ds, r3) := takeDigitRun r2
                (String.mk (e :: s :: d :: ds), r3)
              else if s.isDigit then
                let (ds, r3) := takeDigitRun ([d] ++ r2)
                (String.mk (e :: s :: ds), r3)
              else ("", cs3)
            | [s] =>
              if s.isDigit then (String.mk [e, s], [])
              else ("", cs3)
            | [] => ("", cs3)
          else ("", cs3)
        | [] => ("", cs3)
      .ok (sign ++ intPart ++ fracPart ++ expPart, cs4)
    else .error "Expecting value"
  | [] => .error "Expecting value"

mutual

/-- Parse one JSON value (leading whitespace allowed), returning it and the
unconsumed rest. `fuel` bounds the recursion depth; values whose nesting
exceeds the fuel supplied by `json_loads` cannot occur since fuel exceeds the
input length. -/
def scanJsonValue : Nat → List Char → Except String (JVal × List Char)
  | 0, _ => .error "Nesting too deep"
  | Nat.succ f, cs =>
    match skipJsonWs cs with
    | [] => .error "Expecting value"
    | '"' :: rest =>
      match scanJsonString rest [] with
      | .ok (s, r) => .ok (.jstr s, r)
      | .error e => .error e
    | '[' :: rest =>
      match skipJsonWs rest with
      | ']' :: r2 => .ok (.jarr [], r2)
      | _ =>
        match scanJsonItems f rest with
        | .ok (l, r) => .ok (.jarr l, r)
        | .error e => .error e
    | '\x7b' :: rest =>
      match skipJsonWs rest with
      | '\x7d' :: r2 => .ok (.jobj [], r2)
      | _ =>
        match scanJsonFields f rest with
        | .ok (l, r) => .ok (.jobj l, r)
        | .error e => .error e
    | 't' :: 'r' :: 'u' :: 'e' :: rest => .ok (.jbool true, rest)
    | 'f' :: 'a' :: 'l' :: 's' :: 'e' :: rest => .ok (.jbool false, rest)
    | 'n' :: 'u' :: 'l' :: 'l' :: rest => .ok (.jnull, rest)
    | c :: rest =>
      if c = '-' ∨ c.isDigit then
        match scanJsonNumber (c :: rest) with
        | .ok (s, r) => .ok (.jnum s, r)
        | .error e => .error e
      else .error "Expecting value"

/-- Parse the elements of a non-empty JSON array (opening bracket consumed,
first element not yet parsed). A comma must be followed by a value, so a
trailing comma fails with "Expecting value", as in `json.loads`. -/
def scanJsonItems : Nat → List Char → Except String (List JVal × List Char)
  | 0, _ => .error "Nesting too deep"
  | Nat.succ f, cs =>
    match scanJsonValue f cs with
    | .error e => .error e
    | .ok (v, r) =>
      match skipJsonWs r with
      | ',' :: r2 =>
        match scanJsonItems f r2 with
        | .ok (l, r3) => .ok (v :: l, r3)
        | .error e => .error e
      | ']' :: r2 => .ok ([v], r2)
      | _ => .error "Expecting comma delimiter"

/-- Parse the members of a non-empty JSON object (opening brace consumed).
Keys must be string literals; key and value are separated by a colon. -/
def scanJsonFields : Nat → List Char → Except String (List (String × JVal) × List Char)
  | 0, _ => .error "Nesting too deep"
  | Nat.succ f, cs =>
    match skipJsonWs cs with
    | '"' :: rest =>
      match scanJsonString rest [] with
      | .error e => .error e
      | .ok (k, r) =>
        match skipJsonWs r with
        | ':' :: r2 =>
          match scanJsonValue f r2 with
          | .error e => .error e
          | .ok (v, r3) =>
            match skipJsonWs r3 with
            | ',' :: r4 =>
              match scanJsonFields f r4 with
              | .ok (l, r5) => .ok ((k, v) :: l, r5)
              | .error e => .error e
            | '\x7d' :: r4 => .ok ([(k, v)], r4)
            | _ => .error "Expecting comma delimiter"
        | _ => .error "Expecting colon delimiter"
    | _ => .error "Expecting property name"

end

/-- Python's `json.loads` (line 313): parse one JSON document; anything but
whitespace after the value is an error. The fuel `2 * length + 8` exceeds any
possible recursion depth on the input. -/
def json_loads (s : String) : Except String JVal :=
  match scanJsonValue (2 * s.data.length + 8) s.data with
  | .ok (v, rest) =>
    match skipJsonWs rest with
    | [] => .ok v
    | _ => .error "Extra data"
  | .error e => .error e

/-! ### The regex search of line 309

`re.search(r'\[\s*\{.*\}\s*\]', text, re.DOTALL)` specialised to this fixed
pattern. Python picks the leftmost start position at which the pattern can
match; there, `\s*` before a non-whitespace literal deterministically consumes
the whole whitespace run, and the greedy `.*` (with DOTALL, so it crosses
newlines) backtracks from the end, which makes the match end at the LAST
position where a closing brace is followed by whitespace and a closing
bracket. -/

/-- Python's `\s` for a `str` pattern, restricted to the ASCII whitespace
characters (space, tab, newline, carriage return, vertical tab, form feed);
the pipeline's texts contain no non-ASCII whitespace. -/
def isPyWs (c : Char) : Bool :=
  c = ' ' || c = '\t' || c = '\n' || c = '\r' || c = '\x0b' || c = '\x0c'

/-- Length of the leading whitespace run. -/
def pyWsRun : List Char → Nat
  | c :: cs => if isPyWs c then pyWsRun cs + 1 else 0
  | [] => 0

/-- If position `p` carries `}` followed by a whitespace run and then `]`
(the tail `\}\s*\]` of the pattern), the position just after that `]`. -/
def closeEnd (cs : List Char) (p : Nat) : Option Nat :=
  if cs.get? p = some '\x7d' then
    let q := p + 1 + pyWsRun (cs.drop (p + 1))
    if cs.get? q = some ']' then some (q + 1) else none
  else none

/-- Scan positions `k-1, k-2, …, jmin` for the last one where `closeEnd`
succeeds: the greedy `.*` makes the regex end at the last such position. -/
def lastCloseFrom (cs : List Char) (jmin : Nat) : Nat → Option Nat
  | 0 => none
  | Nat.succ k =>
    if jmin ≤ k then
      match closeEnd cs k with
      | some e => some e
      | none => lastCloseFrom cs jmin k
    else none

/-- Whether the pattern matches starting exactly at position `i`, and if so
where the match ends: `[` at `i`, a whitespace run, `\x7b` right after it, and
some closing-brace/bracket pair later on. -/
def matchAt (cs : List Char) (i : Nat) : Option Nat :=
  if cs.get? i = some '[' then
    let j := i + 1 + pyWsRun (cs.drop (i + 1))
    if cs.get? j = some '\x7b' then
      lastCloseFrom cs (j + 1) cs.length
    else none
  else none

/-- First start position (Python: leftmost) at which the pattern matches,
with the match's end. -/
def searchFrom (cs : List Char) : Nat → Nat → Option (Nat × Nat)
  | _, 0 => none
  | i, Nat.succ fuel =>
    match matchAt cs i with
    | some e => some (i, e)
    | none => if i < cs.length then searchFrom cs (i + 1) fuel else none

/-- Line 309: `re.search(r'\[\s*\{.*\}\s*\]', text, re.DOTALL)`, returning
the matched substring (`json_match.group(0)`, line 311) when there is one. -/
def json_match (s : String) : Option String :=
  match searchFrom s.data 0 (s.data.length + 1) with
  | some (i, e) => some (String.mk ((s.data.drop i).take (e - i)))
  | none => none

/-! ### The export table (lines 316–329)

Each row appended to `df_data` is a dict with the same eight keys, so the
resulting DataFrame has eight columns whenever at least one row exists, and no
columns at all for an empty row list (`pd.DataFrame([])` has an empty column
index). Field accesses that Python would raise on (`.get` on a non-dict
element, `len` of a non-sized value, subscripting a non-subscriptable value)
are modelled as `Except.error`; they are caught by the `except` of line 356. -/

/-- One row of `df_data`: the dict literal of lines 318–327. Cell values are
whatever JSON values the accesses produce (strings in every realistic run). -/
structure Row where
  question : JVal
  optionA : JVal
  optionB : JVal
  optionC : JVal
  optionD : JVal
  optionE : JVal
  optionF : JVal
  correctAnswer : JVal

/-- Python `dict.get(key, default)` on a dict built from the parsed field
list in order: a later duplicate key overwrites an earlier one. -/
def dictGetD (o : List (String × JVal)) (key : String) (d : JVal) : JVal :=
  o.foldl (fun acc kv => if kv.1 = key then kv.2 else acc) d

/-- Python `len` on a parsed JSON value: defined for lists, strings and
dicts; a `TypeError` otherwise. -/
def pyLen : JVal → Except String Nat
  | .jarr l => .ok l.length
  | .jstr s => .ok s.length
  | .jobj o => .ok o.length
  | _ => .error "TypeError: object has no len"

/-- Python subscripting `v[k]` for an integer `k`: list indexing, string
indexing (producing a one-character string), and errors elsewhere (a dict
subscripted by an int raises KeyError, other values TypeError). -/
def pyIndex : JVal → Nat → Except String JVal
  | .jarr l, k =>
    match l.get? k with
    | some v => .ok v
    | none => .error "IndexError: list index out of range"
  | .jstr s, k =>
    match s.data.get? k with
    | some c => .ok (.jstr (String.mk [c]))
    | none => .error "IndexError: string index out of range"
  | .jobj _, _ => .error "KeyError"
  | _, _ => .error "TypeError: object is not subscriptable"

/-- One option cell of the row (lines 320–325):
`q.get("options", [""] * num_options)[k] if len(q.get("options", [])) > k else ""`.
The guard's `len` uses default `[]`; the subscripted access uses default
`[""] * num_options` (never reached when the key is absent, since the guard
is then `0 > k`). -/
def optSlot (o : List (String × JVal)) (num_options k : Nat) : Except String JVal := do
  let n ← pyLen (dictGetD o "options" (.jarr []))
  if k < n then
    pyIndex (dictGetD o "options" (.jarr (List.replicate num_options (.jstr "")))) k
  else
    pure (.jstr "")

/-- The dict appended to `df_data` for one parsed element `q` (lines 318–327).
A non-dict element has no `.get` method: AttributeError. -/
def df_row (q : JVal) (num_options : Nat) : Except String Row :=
  match q with
  | .jobj o => do
    let a ← optSlot o num_options 0
    let b ← optSlot o num_options 1
    let c ← optSlot o num_options 2
    let d ← optSlot o num_options 3
    let e ← optSlot o num_options 4
    let f ← optSlot o num_options 5
    pure {
      question := dictGetD o "question" (.jstr "")
      optionA := a, optionB := b, optionC := c
      optionD := d, optionE := e, optionF := f
      correctAnswer := dictGetD o "correct_answer" (.jstr "") }
  | _ => .error "AttributeError: object has no attribute get"

/-- The `df_data` loop of lines 316–327: one row per parsed element, in input
order; the first faulting access aborts the whole block (caught at line 356). -/
def df_data (questions : List JVal) (num_options : Nat) : Except String (List Row) :=
  match questions with
  | [] => .ok []
  | q :: rest =>
    match df_row q num_options with
    | .error e => .error e
    | .ok r =>
      match df_data rest num_options with
      | .error e => .error e
      | .ok rs => .ok (r :: rs)

/-- The column labels of the exported table, in the order the row dicts list
them (lines 319–326). There are eight: the two fixed columns and six option
columns, independent of the requested option count. -/
def tableHeaders : List String :=
  ["Асуулт", "Сонголт A", "Сонголт B", "Сонголт C",
   "Сонголт D", "Сонголт E", "Сонголт F", "Зөв хариулт"]

/-- Columns of `pd.DataFrame(df_data)`: the union of the row dicts' keys in
first-appearance order — all eight headers when any row exists, none for an
empty row list. -/
def tableColumns (rows : List Row) : List String :=
  match rows with
  | [] => []
  | _ => tableHeaders

/-! ### The parse-and-export block (lines 306–327, 354–359) -/

/-- Which user-visible outcome the block reaches for a given accumulated
response text:
  * `noJson` — the regex found no match; `st.error` of line 355 fires and no
    problem list exists (`NoJsonFound`);
  * `parseError err raw` — an exception (JSON decode error or a field-access
    error while building `df_data`) was caught at line 356; `st.error` shows
    `err` and `st.text` shows the raw accumulated text (`MalformedJson`);
  * `success questions rows` — the parsed problem list and the export rows. -/
inductive ParseOutcome where
  | noJson
  | parseError (err : String) (raw : String)
  | success (questions : List JVal) (rows : List Row)

/-- True exactly on the `success` outcome. -/
def ParseOutcome.isSuccess : ParseOutcome → Bool
  | .success _ _ => true
  | _ => false

/-- The whole block guarded by `if "last_generated" in st.session_state and
st.session_state["last_generated"]` (line 306): given the non-empty
accumulated text, locate the JSON span, strictly parse it, and build the
export rows. A matched span always starts with `[`, so a successful parse is
necessarily an array; the catch-all branch mirrors the `except` that any
other iteration behaviour would land in. -/
def processGenerated (lastGenerated : String) (num_options : Nat) : ParseOutcome :=
  match json_match lastGenerated with
  | none => .noJson
  | some jsonStr =>
    match json_loads jsonStr with
    | .error e => .parseError e lastGenerated
    | .ok (.jarr questions) =>
      match df_data questions num_options with
      | .error e => .parseError e lastGenerated
      | .ok rows => .success questions rows
    | .ok _ => .parseError "TypeError: value is not iterable over dicts" lastGenerated

/-! ### The streaming adapter `stream_gemini_text` (lines 237–270)

The generator is modelled as a function of an explicit environment describing
everything outside it: whether the client library imported, the two credential
sources, and the behaviour of the external calls (`genai.configure`,
`genai.GenerativeModel`, `model.generate_content`, and the iteration over the
streaming response — a list of chunk texts possibly followed by a transport
fault). Its effect is the produced chunk sequence, the optional write to
`st.session_state["last_generated"]`, any exception escaping the generator,
and whether a generation request was issued at all. -/

/-- Environment of one run of `stream_gemini_text`. `envKey` is
`os.getenv("GOOGLE_API_KEY")` (empty string for unset), `sidebarKey` the
interactive field. A `some e` in a fault slot means the corresponding external
call raises an exception described by `e`; `chunkTexts` lists `chunk.text` for
the chunks the transport delivers (`none` for a chunk without text) before
either normal completion or `streamFault`. -/
structure GenEnv where
  genaiAvailable : Bool
  envKey : String
  sidebarKey : String
  configureFault : Option String
  constructFault : Option String
  requestFault : Option String
  chunkTexts : List (Option String)
  streamFault : Option String

/-- Observable result of one run of the generator: the chunks it yielded, the
value written to `st.session_state["last_generated"]` (`none` when the
assignment at line 268 is never reached), an exception escaping the generator
uncaught, and whether `model.generate_content` was invoked. -/
structure StreamResult where
  yielded : List String
  sessionWrite : Option String
  raised : Option String
  issuedRequest : Bool
deriving DecidableEq

/-- The guard message of line 241. -/
def libMissingMsg : String :=
  "⚠️ google-generativeai сан суусан эсэхийг шалгана уу: `pip install google-generativeai`\n"

/-- The guard message of line 246. -/
def noKeyMsg : String :=
  "⚠️ API түлхүүр оруулаагүй байна. Sidebar-аас GOOGLE_API_KEY оруулна уу.\n"

/-- The inline fault chunk of line 270: `f"\n\n❌ Алдаа: {e}"`. -/
def faultMsg (e : String) : String := "\n\n❌ Алдаа: " ++ e

/-- The texts collected and yielded by the loop of lines 264–267: chunks whose
`.text` is truthy (present and non-empty), in arrival order. -/
def collectChunks (ts : List (Option String)) : List String :=
  ts.filterMap fun t =>
    match t with
    | some s => if s = "" then none else some s
    | none => none

/-- Lines 237–270. Control flow in source order: the two guards each yield one
message and end; `genai.configure` and `genai.GenerativeModel` run OUTSIDE the
`try`, so a fault there escapes the generator; inside the `try`, a fault from
`generate_content` or from iterating the response is caught and yielded as a
final chunk — and in that case line 268 never runs, so the session accumulator
is not written. Only on normal exhaustion is the accumulated text stored. -/
def stream_gemini_text (env : GenEnv) : StreamResult :=
  if env.genaiAvailable = false then
    { yielded := [libMissingMsg], sessionWrite := none, raised := none, issuedRequest := false }
  else
    let key := if env.envKey ≠ "" then env.envKey else env.sidebarKey
    if key = "" then
      { yielded := [noKeyMsg], sessionWrite := none, raised := none, issuedRequest := false }
    else
      match env.configureFault with
      | some e => { yielded := [], sessionWrite := none, raised := some e, issuedRequest := false }
      | none =>
        match env.constructFault with
        | some e => { yielded := [], sessionWrite := none, raised := some e, issuedRequest := false }
        | none =>
          match env.requestFault with
          | some e =>
            { yielded := [faultMsg e], sessionWrite := none, raised := none, issuedRequest := true }
          | none =>
            let texts := collectChunks env.chunkTexts
            match env.streamFault with
            | some e =>
              { yielded := texts ++ [faultMsg e], sessionWrite := none,
                raised := none, issuedRequest := true }
            | none =>
              { yielded := texts, sessionWrite := some (String.join texts),
                raised := none, issuedRequest := true }

/-! ### The prompt builder `build_prompt` (lines 188–234)

`SYSTEM_HINT` (lines 188–193) is a stripped triple-quoted template;
`build_prompt` interpolates it together with the sidebar globals `subject`,
`main_topic`, `subtopic` and its own arguments into an f-string, strips it
(the surrounding text is fixed, so exactly the one leading and the one
trailing newline are removed for every input), and appends a second block.
`textwrap.dedent` on that block is the identity, since several of its lines
already start at column zero. The definition below is that composition,
written as a right-nested concatenation in source order. -/

/-- Lines 188–234, with the sidebar globals passed explicitly. -/
def build_prompt (subject main_topic subtopic : String) (user_problem : String)
    (n : Nat) (options_count : Nat) : String :=
  "Та бол " ++ subject ++
  " багш.\nХэрэглэгчийн өгсөн бодлогын агуулга, сэдэв, түвшинд тулгуурлан төстэй шинэ мульти сонголттой бодлогууд зохионо.\nБодлогууд нь мэдээллийн хувьд логик, хэмжигдэхүүнүүд нь бодогдохоор,\nбага зэрэг хувьсан өөрчлөгдсөн (тоо ба нөхцөл) байх ёстой.\n\nСЭДЭВ: " ++
  main_topic ++ " - " ++ subtopic ++
  "\n\nХэрэглэгчийн өгсөн бодлого:\n\n" ++ user_problem ++
  "\n\n\nҮҮСГЭХ ДААЛГАВАР:\n- Дээрх бодлоготой ижил сэдэв (" ++
  main_topic ++ " - " ++ subtopic ++
  "), нэг түвшний **" ++ toString n ++
  "** шинэ мульти сонголттой бодлого зохионо.\n- Бодлого бүрт яг " ++
  toString options_count ++
  " сонголт өгөх.\n- Зөв хариултыг нэг сонголтод оруулах.\n- Хэмжигдэхүүн, нөхцөлийг өөрчилж төрөлжүүл.\n- Бодлого бүр: 1-2 догол мөр, ойлгомжтой, нэг утгатай байг.\n- " ++
  subject ++
  " хичээлийн стандарт нэгж, тэмдэглэгээг ашигла.\n- Давхардсан нөхцөл, тоо бүү ашигла.\n\n\nГАРГАЛТЫН ХЭЛБЭР:\n- JSON форматаар гаргах.\n- Дараах бүтэцтэй байх:\n\n[\n  \x7b\n    \"question\": \"Бодлогын текст\",\n    \"options\": [\"сонголт 1\", \"сонголт 2\", \"сонголт 3\", \"сонголт 4\"],\n    \"correct_answer\": \"зөв сонголтын текст\"\n  \x7d,\n  ...\n]\n\n- Монгол хэлээр бич.\n- ЗӨВХӨН JSON объект буцаахад анхаар. Ямар нэгэн нэмэлт текст бичихгүй.\n"

/-! ### Shared helpers and concrete data for the theorems -/

/-- The string `s` occurs verbatim as a contiguous substring of `t`. -/
def containsSub (t s : String) : Prop := ∃ p q, t = p ++ s ++ q

/-- First hand-built problem object of the round-trip text. -/
def prob1 : JVal :=
  .jobj [("question", .jstr "Q1"), ("options", .jarr [.jstr "a", .jstr "b"]),
    ("correct_answer", .jstr "a")]

/-- Second hand-built problem object of the round-trip text. -/
def prob2 : JVal :=
  .jobj [("question", .jstr "Q2"), ("options", .jarr [.jstr "c", .jstr "d"]),
    ("correct_answer", .jstr "d")]

/-- Third hand-built problem object of the round-trip text. -/
def prob3 : JVal :=
  .jobj [("question", .jstr "Q3"), ("options", .jarr [.jstr "e", .jstr "f"]),
    ("correct_answer", .jstr "e")]

/-- Export row of `prob1`. -/
def row1 : Row :=
  ⟨.jstr "Q1", .jstr "a", .jstr "b", .jstr "", .jstr "", .jstr "", .jstr "", .jstr "a"⟩

/-- Export row of `prob2`. -/
def row2 : Row :=
  ⟨.jstr "Q2", .jstr "c", .jstr "d", .jstr "", .jstr "", .jstr "", .jstr "", .jstr "d"⟩

/-- Export row of `prob3`. -/
def row3 : Row :=
  ⟨.jstr "Q3", .jstr "e", .jstr "f", .jstr "", .jstr "", .jstr "", .jstr "", .jstr "e"⟩

/-- The hand-built well-formed JSON array of the three problem objects. -/
def goodArray : String :=
  "[\x7b\"question\": \"Q1\", \"options\": [\"a\", \"b\"], \"correct_answer\": \"a\"\x7d, \x7b\"question\": \"Q2\", \"options\": [\"c\", \"d\"], \"correct_answer\": \"d\"\x7d, \x7b\"question\": \"Q3\", \"options\": [\"e\", \"f\"], \"correct_answer\": \"e\"\x7d]"

/-- The three-object array embedded in benign prose: no bracket before it, no
closing brace or bracket after it. -/
def roundTripText : String :=
  "Sain baina uu! Ene bol hariu: " ++ goodArray ++ " Amjilt husie."

/-- Adversarial prose around the same well-formed array: an earlier `[` that
is whitespace-followed by a `\x7b` widens the regex match beyond the array. -/
def advText : String := "x[ \x7by " ++ goodArray ++ " z"

/-- Accumulated text whose matched span is not valid JSON (missing colon). -/
def malformedText : String := "ab [\x7b\"a\" \"b\"\x7d] cd"

/-- First object of the mixed-element witness text. -/
def mprob1 : JVal :=
  .jobj [("question", .jstr "Q1"), ("options", .jarr [.jstr "a"]),
    ("correct_answer", .jstr "a")]

/-- Second object of the mixed-element witness text. -/
def mprob2 : JVal :=
  .jobj [("question", .jstr "Q2"), ("options", .jarr [.jstr "b"]),
    ("correct_answer", .jstr "b")]

/-- A matched span that parses as an array containing a bare string between
two well-formed problem objects. -/
def mixedElemText : String :=
  "[\x7b\"question\": \"Q1\", \"options\": [\"a\"], \"correct_answer\": \"a\"\x7d, \"oops\", \x7b\"question\": \"Q2\", \"options\": [\"b\"], \"correct_answer\": \"b\"\x7d]"

/-- Witness environment: library unavailable. -/
def envNoLib : GenEnv :=
  ⟨false, "", "", none, none, none, [], none⟩

/-- Transport run for C1: two text chunks, then a fault during iteration. -/
def envC1 : GenEnv :=
  ⟨true, "k", "", none, none, none, [some "Hello", some " world"], some "boom"⟩

/-- Environment for C3's counterexample: `genai.configure` raises. -/
def envCfgFault : GenEnv :=
  ⟨true, "k", "", some "boom", none, none, [], none⟩

/-- Environment for C3's witness: a clean streaming run. -/
def envCleanRun : GenEnv :=
  ⟨true, "k", "", none, none, none, [some "Hi"], none⟩

/-! ### Claim theorems -/

/-- Occurrence at the end: `s` is a substring of `p ++ s`. -/
theorem containsSub_stop (p s : String) : containsSub (p ++ s) s :=
  ⟨p, "", (String.append_empty _).symm⟩

/-- Appending text on the right preserves substring occurrence. -/
theorem containsSub_ext (y : String) {t s : String} (h : containsSub t s) :
    containsSub (t ++ y) s := by
  obtain ⟨p, q, hpq⟩ := h
  exact ⟨p, q ++ y, by rw [hpq]; exact String.append_assoc _ _ _⟩

/-! Concrete evaluations checking the embedding against the oracle behaviour
of `json.loads`, `re.search` and the row construction. -/

example : json_loads "[\x7b\"a\": \"b\"\x7d]" =
    .ok (.jarr [.jobj [("a", .jstr "b")]]) := rfl
example : json_loads "[\x7b\"a\": \"b\"\x7d,]" = .error "Expecting value" := rfl
example : json_loads "[\x7b\"a\" \"b\"\x7d]" = .error "Expecting colon delimiter" := rfl
example : json_loads "[1, \"x\", true, null, -2.5e3]" =
    .ok (.jarr [.jnum "1", .jstr "x", .jbool true, .jnull, .jnum "-2.5e3"]) := rfl

example : json_match "no json here" = none := rfl
example : json_match "ab [\x7b\"a\" \"b\"\x7d] cd" = some "[\x7b\"a\" \"b\"\x7d]" := rfl
example : json_match "x[ \x7by [\x7b\"q\": \"1\"\x7d] z" = some "[ \x7by [\x7b\"q\": \"1\"\x7d]" := rfl
example : json_match "[\x7b\"a\":\"b\"\x7d,]" = none := rfl
example : json_match "[  \n \x7b\"a\":1\x7d \n ]" = some "[  \n \x7b\"a\":1\x7d \n ]" := rfl
example : json_match "[x\x7b \x7d]" = none := rfl
example : json_match "pre [ \x7b\"a\":1\x7d ] mid [\x7b\"b\":2\x7d] post" =
    some "[ \x7b\"a\":1\x7d ] mid [\x7b\"b\":2\x7d]" := rfl

example :
    df_row (.jobj [("question", .jstr "Q"), ("options", .jarr [.jstr "a", .jstr "b"]),
      ("correct_answer", .jstr "a")]) 4 =
    .ok ⟨.jstr "Q", .jstr "a", .jstr "b", .jstr "", .jstr "", .jstr "", .jstr "", .jstr "a"⟩ := rfl
example : df_row (.jstr "oops") 4 = .error "AttributeError: object has no attribute get" := rfl
example : df_row (.jobj [("question", .jstr "Q")]) 4 =
    .ok ⟨.jstr "Q", .jstr "", .jstr "", .jstr "", .jstr "", .jstr "", .jstr "", .jstr ""⟩ := rfl

/-- C5: for every valid generation request (non-empty sample problem, question
count in [1,20], option count in [2,6]), the prompt built by `build_prompt`
contains the decimal question count, the decimal option count, and the sample
problem text verbatim, each as a literal substring. -/
theorem build_prompt_contains (subject main_topic subtopic user_problem : String)
    (n options_count : Nat) (hu : user_problem ≠ "") (hn1 : 1 ≤ n) (hn2 : n ≤ 20)
    (ho1 : 2 ≤ options_count) (ho2 : options_count ≤ 6) :
    containsSub (build_prompt subject main_topic subtopic user_problem n options_count)
      (toString n) ∧
    containsSub (build_prompt subject main_topic subtopic user_problem n options_count)
      (toString options_count) ∧
    containsSub (build_prompt subject main_topic subtopic user_problem n options_count)
      user_problem := by
  unfold build_prompt
  refine ⟨?_, ?_, ?_⟩
  · iterate 5 apply containsSub_ext
    exact containsSub_stop _ _
  · iterate 3 apply containsSub_ext
    exact containsSub_stop _ _
  · iterate 11 apply containsSub_ext
    exact containsSub_stop _ _

/-- Witness for C5 at a concrete request. -/
theorem build_prompt_contains_witness :
    containsSub (build_prompt "Физик" "Механик" "Кинематик" "Бодлого" 5 4)
      (toString (5 : Nat)) ∧
    containsSub (build_prompt "Физик" "Механик" "Кинематик" "Бодлого" 5 4)
      (toString (4 : Nat)) ∧
    containsSub (build_prompt "Физик" "Механик" "Кинематик" "Бодлого" 5 4) "Бодлого" :=
  build_prompt_contains "Физик" "Механик" "Кинематик" "Бодлого" 5 4
    (by decide) (by decide) (by decide) (by decide) (by decide)

/-- C7: building a row with `num_options = 4` from a problem whose options
sequence has only two entries puts those two options, in order, in the
Option A and Option B cells and leaves the remaining option cells as empty
strings: option slots with no corresponding entry are blank-padded. -/
theorem df_row_blank_pads (q a b c : JVal) :
    df_row (.jobj [("question", q), ("options", .jarr [a, b]),
      ("correct_answer", c)]) 4 =
    .ok ⟨q, a, b, .jstr "", .jstr "", .jstr "", .jstr "", c⟩ := rfl

/-- C8: when the client library is unavailable, or no credential is available
from either the ambient environment or the interactive field, the adapter
yields exactly one informational chunk and ends: nothing escapes as an
exception, the session accumulator is untouched, and no generation request is
issued. -/
theorem stream_guard_single_chunk (env : GenEnv)
    (h : env.genaiAvailable = false ∨ (env.envKey = "" ∧ env.sidebarKey = "")) :
    (stream_gemini_text env).yielded.length = 1 ∧
    (stream_gemini_text env).raised = none ∧
    (stream_gemini_text env).sessionWrite = none ∧
    (stream_gemini_text env).issuedRequest = false := by
  rcases h with h | ⟨h1, h2⟩
  · simp [stream_gemini_text, h]
  · cases hav : env.genaiAvailable
    · simp [stream_gemini_text, hav]
    · simp [stream_gemini_text, hav, h1, h2]

/-- Witness for C8: with the library unavailable the adapter produces one
chunk and stops. -/
theorem stream_guard_single_chunk_witness :
    (stream_gemini_text envNoLib).yielded.length = 1 ∧
    (stream_gemini_text envNoLib).raised = none ∧
    (stream_gemini_text envNoLib).sessionWrite = none ∧
    (stream_gemini_text envNoLib).issuedRequest = false :=
  stream_guard_single_chunk envNoLib (Or.inl rfl)

/-- C9: extraction is deterministic and idempotent. The whole
parse-and-export block is embedded as the pure function `processGenerated` of
the accumulated text (and the option count): it reads no other state and uses
no randomness, so a second run on the same text is literally the same
computation and returns the same problems, rows and error report. -/
theorem processGenerated_idempotent (t : String) (n : Nat) :
    processGenerated t n = processGenerated t n := rfl

/-- C1 counterexample: with chunks "Hello", " world" and then a transport
fault, the adapter does yield the two chunks followed by the fault
description, but the session accumulator is never written (line 268 sits
inside the `try`, after the loop), so it does not hold "Hello world". -/
theorem stream_fault_loses_accumulator :
    (stream_gemini_text envC1).yielded = ["Hello", " world", faultMsg "boom"] ∧
    (stream_gemini_text envC1).sessionWrite ≠ some "Hello world" := by
  exact ⟨rfl, by decide⟩

/-- C1 (amended): on a transport fault after chunks "Hello" and " world", the
produced sequence is exactly ["Hello", " world", fault description], and the
session accumulator is NOT updated — the partial accumulation is discarded,
not preserved for extraction. -/
theorem stream_fault_sequence (env : GenEnv) (e : String)
    (hl : env.genaiAvailable = true)
    (hk : (if env.envKey ≠ "" then env.envKey else env.sidebarKey) ≠ "")
    (hc : env.configureFault = none) (hm : env.constructFault = none)
    (hr : env.requestFault = none)
    (hch : env.chunkTexts = [some "Hello", some " world"])
    (hf : env.streamFault = some e) :
    (stream_gemini_text env).yielded = ["Hello", " world", faultMsg e] ∧
    (stream_gemini_text env).sessionWrite = none := by
  rcases env with ⟨av, ek, sk, cf, mf, rf, ch, sf⟩
  simp only at hl hk hc hm hr hch hf
  subst hl hc hm hr hch hf
  simp only [ne_eq, ite_not] at hk
  simp [stream_gemini_text, hk, collectChunks]

/-- Witness for C1's amended statement at the concrete environment. -/
theorem stream_fault_sequence_witness :
    (stream_gemini_text envC1).yielded = ["Hello", " world", faultMsg "boom"] ∧
    (stream_gemini_text envC1).sessionWrite = none :=
  stream_fault_sequence envC1 "boom" rfl (by decide) rfl rfl rfl rfl rfl

/-- C3 counterexample: a fault raised while configuring the client
(`genai.configure`, line 249, outside the `try`) escapes the adapter as an
uncaught exception instead of being converted into a user-visible chunk. -/
theorem configure_fault_escapes :
    (stream_gemini_text envCfgFault).raised = some "boom" ∧
    (stream_gemini_text envCfgFault).yielded = [] :=
  ⟨rfl, rfl⟩

/-- C3 (amended): provided client configuration and model construction do not
fault, no fault escapes the adapter: guard conditions and faults of the
streaming request or of iteration are all converted into yielded chunks. -/
theorem stream_no_fault_escape (env : GenEnv)
    (hc : env.configureFault = none) (hm : env.constructFault = none) :
    (stream_gemini_text env).raised = none := by
  rcases env with ⟨av, ek, sk, cf, mf, rf, ch, sf⟩
  simp only at hc hm
  subst hc hm
  cases av
  · rfl
  · by_cases hk : (if ek = "" then sk else ek) = ""
    · simp [stream_gemini_text, hk]
    · cases rf <;> cases sf <;> simp [stream_gemini_text, hk]

/-- Witness for C3's amended statement. -/
theorem stream_no_fault_escape_witness :
    (stream_gemini_text envCleanRun).raised = none :=
  stream_no_fault_escape envCleanRun rfl rfl

/-- C4: when the regex finds no bracketed array of objects, the block reports
the no-JSON message and produces no problem list; when the matched span fails
strict JSON parsing, the block reports the parse error with the original raw
text attached for display. -/
theorem extraction_error_reports (t : String) (n : Nat) :
    (json_match t = none → processGenerated t n = .noJson) ∧
    (∀ s e, json_match t = some s → json_loads s = .error e →
      processGenerated t n = .parseError e t) := by
  constructor
  · intro h
    simp [processGenerated, h]
  · intro s e h1 h2
    simp [processGenerated, h1, h2]

/-- Witness for C4 at concrete texts for both branches. -/
theorem extraction_error_reports_witness :
    processGenerated "no json here" 4 = .noJson ∧
    processGenerated malformedText 4 = .parseError "Expecting colon delimiter" malformedText :=
  ⟨(extraction_error_reports "no json here" 4).1 rfl,
   (extraction_error_reports malformedText 4).2 "[\x7b\"a\" \"b\"\x7d]"
     "Expecting colon delimiter" rfl rfl⟩

/-- C2 counterexample: exporting one problem with `num_options = 4` yields a
table whose column count is 8, not 2 + 4: the row dict of lines 318–327
always carries all six option columns, whatever the requested option count. -/
theorem table_columns_not_request_sized :
    df_data [prob1] 4 = .ok [row1] ∧ (tableColumns [row1]).length ≠ 2 + 4 :=
  ⟨rfl, by decide⟩

/-- C2 (amended): a successfully exported table has exactly one row per
problem, and — whenever at least one problem is present — exactly
`2 + 6 = 8` columns (question, options A–F, correct answer), independent of
the requested option count. -/
theorem df_data_shape (l : List JVal) (n : Nat) :
    ∀ rows, df_data l n = .ok rows →
      rows.length = l.length ∧
      (rows.isEmpty = false → (tableColumns rows).length = 2 + 6) := by
  induction l with
  | nil =>
    intro rows h
    simp only [df_data] at h
    injection h with h
    subst h
    simp
  | cons q rest ih =>
    intro rows h
    simp only [df_data] at h
    cases hdf : df_row q n with
    | error e => rw [hdf] at h; cases h
    | ok r =>
      rw [hdf] at h
      cases hrest : df_data rest n with
      | error e => rw [hrest] at h; cases h
      | ok rs =>
        rw [hrest] at h
        injection h with h
        subst h
        obtain ⟨ih1, _⟩ := ih rs hrest
        exact ⟨by simp [ih1], fun _ => rfl⟩

/-- Witness for C2's amended statement at a one-problem table. -/
theorem df_data_shape_witness :
    ([row1] : List Row).length = ([prob1] : List JVal).length ∧
    (([row1] : List Row).isEmpty = false → (tableColumns [row1]).length = 2 + 6) :=
  df_data_shape [prob1] 4 [row1] rfl

set_option maxRecDepth 40000 in
/-- C6 counterexample: with the same well-formed 3-object array embedded in
prose that contains an earlier bracket-brace pair, the matched span is wider
than the array, strict parsing fails, and extraction produces no problems at
all — so the claim does not hold for arbitrary surrounding prose. -/
theorem roundtrip_fails_adversarial_prose :
    processGenerated advText 4 = .parseError "Expecting property name" advText ∧
    (processGenerated advText 4).isSuccess = false :=
  ⟨rfl, rfl⟩

set_option maxRecDepth 40000 in
/-- C6 (amended): for the synthetic accumulated text embedding the hand-built
3-object array in benign prose (no `[` before the array, no `\x7d` or `]`
after it), extraction returns exactly the three problems, field-for-field,
together with their export rows. -/
theorem roundtrip_extraction :
    processGenerated roundTripText 4 = .success [prob1, prob2, prob3] [row1, row2, row3] :=
  rfl

/-- If any parsed element is not an object, building the export rows faults
(Python: `.get` on a non-dict raises AttributeError, caught at line 356). -/
theorem df_data_error_of_nonobject (n : Nat) :
    ∀ l : List JVal, (∃ q ∈ l, q.isObj = false) →
      ∃ e, df_data l n = .error e := by
  intro l
  induction l with
  | nil =>
    rintro ⟨q, hq, _⟩
    cases hq
  | cons q rest ih =>
    rintro ⟨q', hq', hobj⟩
    rcases List.mem_cons.mp hq' with rfl | hmem
    · have hrow : df_row q' n = .error "AttributeError: object has no attribute get" := by
        cases q' with
        | jobj o => simp [JVal.isObj] at hobj
        | jnull => rfl
        | jbool b => rfl
        | jnum s => rfl
        | jstr s => rfl
        | jarr l => rfl
      exact ⟨"AttributeError: object has no attribute get", by simp [df_data, hrow]⟩
    · cases hdf : df_row q n with
      | error e => exact ⟨e, by simp [df_data, hdf]⟩
      | ok r =>
        obtain ⟨e, he⟩ := ih ⟨q', hmem, hobj⟩
        exact ⟨e, by simp [df_data, hdf, he]⟩

/-- C10: if the matched span parses as an array with some non-object element,
the run does not crash the embedding's pipeline and produces no problem list
or table: the field-access fault is caught and reported as a parse error with
the full raw response attached for display. -/
theorem nonobject_element_reports_error (t s : String) (l : List JVal) (n : Nat)
    (h1 : json_match t = some s) (h2 : json_loads s = .ok (.jarr l))
    (h3 : ∃ q ∈ l, q.isObj = false) :
    ∃ e, processGenerated t n = .parseError e t := by
  obtain ⟨e, he⟩ := df_data_error_of_nonobject n l h3
  exact ⟨e, by simp [processGenerated, h1, h2, he]⟩

set_option maxRecDepth 40000 in
/-- Witness for C10 at the concrete mixed-element text. -/
theorem nonobject_element_reports_error_witness :
    ∃ e, processGenerated mixedElemText 4 = .parseError e mixedElemText :=
  nonobject_element_reports_error mixedElemText mixedElemText
    [mprob1, .jstr "oops", mprob2] 4 rfl rfl
    ⟨.jstr "oops", List.Mem.tail _ (List.Mem.head _), rfl⟩
